import Mathlib

/-!
Verification of `src/sqlx-core/src/query_string.rs`: the `QueryString`
trusted-text value, the `QuerySafeStr` conversion trait and its closed set of
implementations, and the `AssertQuerySafe` assertion wrapper.

Modelling conventions:
- Every Rust string producer (`&'static str`, `&'a str`, `String`, `Box<str>`,
  `Arc<str>`) is a pointer to immutable UTF-8 text, modelled as a `StrRef`:
  an allocation identity `loc` plus the text content `data`.  Carrying the
  allocation identity lets theorems state "same allocation / no copy" facts.
  `String` is modelled without its spare-capacity field, under which
  `String::into::<Box<str>>()` transfers the allocation without copying.
- Allocation happens only through an explicit `AllocState` (a fresh-location
  counter plus allocation and copy tallies).  Conversion functions that do not
  take an `AllocState` cannot allocate or copy by construction.
- The text payload is a Lean `String`; equality of Lean strings coincides with
  equality of the UTF-8 byte sequences they encode.
-/

namespace QuerySafe

/-- A reference to immutable UTF-8 text: an allocation identity (`loc`) plus
the text content (`data`).  Models the pointer-to-string-data underlying
`&'static str`, `&'a str`, `String`, `Box<str>` and `Arc<str>`. -/
structure StrRef where
  loc : Nat
  data : String
deriving DecidableEq

/-- `pub struct AssertQuerySafe<T>(pub T);` — the explicit assertion wrapper;
`val` is the public tuple field `.0`. -/
structure AssertQuerySafe (T : Type) where
  val : T
deriving DecidableEq

/-- `enum Repr<'a> { Slice(&'a str), Static(&'static str), Boxed(Box<str>),
Arced(Arc<str>) }` — the four storage modes of a `QueryString`. -/
inductive Repr where
  | Slice (s : StrRef)
  | Static (s : StrRef)
  | Boxed (s : StrRef)
  | Arced (s : StrRef)
deriving DecidableEq

/-- `pub struct QueryString<'a>(Repr<'a>);` — `repr` is the private field `.0`. -/
structure QueryString where
  repr : Repr
deriving DecidableEq

/-- The spec's storage-mode names for the four `Repr` variants. -/
inductive Mode where
  | Borrowed
  | Static
  | ExclusivelyOwned
  | SharedOwnership
deriving DecidableEq

/-- Which storage mode a `Repr` variant is. -/
def Repr.mode : Repr → Mode
  | .Slice _ => .Borrowed
  | .Static _ => .Static
  | .Boxed _ => .ExclusivelyOwned
  | .Arced _ => .SharedOwnership

/-- Whether a `Repr` is the `Slice` (Borrowed) variant. -/
def Repr.isSlice : Repr → Bool
  | .Slice _ => true
  | _ => false

/-- Storage mode of a `QueryString`. -/
def QueryString.mode (q : QueryString) : Mode :=
  q.repr.mode

/-- `QueryString::as_str`: borrow the inner query string.  Every arm returns
the stored reference itself (for `Boxed`/`Arced`, the view into that very
allocation), so the result is the stored `StrRef` unchanged. -/
def QueryString.as_str (q : QueryString) : StrRef :=
  match q.repr with
  | .Slice s => s
  | .Static s => s
  | .Boxed s => s
  | .Arced s => s

/-- The text payload of a `QueryString`: the content `as_str` points at. -/
def QueryString.payload (q : QueryString) : String :=
  q.as_str.data

/-- `impl<T> PartialEq<T> for QueryString where T: AsRef<str>`, specialised to
`T = QueryString` (whose `as_ref` is `as_str`): the body is
`self.as_str() == other.as_ref()`, and `str` equality in Rust compares the
text bytes, never the pointers. -/
def QueryString.beq (a b : QueryString) : Bool :=
  a.as_str.data == b.as_str.data

/-- `impl Hash for QueryString`: the body is `self.as_str().hash(state)`.
The hasher is abstract: `hashStr` stands for `str::hash`, feeding the text
bytes into an arbitrary hasher state (modelled as `Nat`); it sees only the
text content, never the storage mode or the pointer. -/
def QueryString.hash (hashStr : String → Nat → Nat) (q : QueryString) (state : Nat) : Nat :=
  hashStr q.as_str.data state

/-- `impl QuerySafeStr<'static> for &'static str`:
`QueryString(Repr::Static(self))`. -/
def staticStr_into_query_string (s : StrRef) : QueryString :=
  ⟨.Static s⟩

/-- `impl<'a> QuerySafeStr<'a> for AssertQuerySafe<&'a str>`:
`QueryString(Repr::Slice(self.0))`. -/
def assertSlice_into_query_string (a : AssertQuerySafe StrRef) : QueryString :=
  ⟨.Slice a.val⟩

/-- `impl QuerySafeStr<'static> for AssertQuerySafe<String>`, at content and
mode level: `QueryString(Repr::Boxed(self.0.into()))` stores the text of
`self.0` as `Boxed`.  The allocation identity of `self.0.into()` is
allocator-dependent — `String::into_boxed_str` may reallocate and copy when
the `String` has excess capacity — and is modelled faithfully by
`assertString_into_query_string_alloc` below; this content-level map is used
only where allocation identity is irrelevant (trust-gate membership and
totality, content equality and hashing). -/
def assertString_into_query_string (a : AssertQuerySafe StrRef) : QueryString :=
  ⟨.Boxed a.val⟩

/-- `impl QuerySafeStr<'static> for AssertQuerySafe<Box<str>>`:
`QueryString(Repr::Boxed(self.0))`. -/
def assertBoxed_into_query_string (a : AssertQuerySafe StrRef) : QueryString :=
  ⟨.Boxed a.val⟩

/-- `impl QuerySafeStr<'static> for AssertQuerySafe<Arc<str>>`.  The source
body `QueryString(Repr::Arced(self.into()))` does not type-check in Rust: it
needs `Arc<str>: From<AssertQuerySafe<Arc<str>>>`, which no impl provides.
Modelled from the spec: the evident intent (and the upstream form) is
`QueryString(Repr::Arced(self.0))`, a new reference to the same shared
allocation without copying. -/
def assertArc_into_query_string_intended (a : AssertQuerySafe StrRef) : QueryString :=
  ⟨.Arced a.val⟩

/-- `impl<'a> QuerySafeStr<'a> for QueryString<'a>`: the body is `self`. -/
def queryString_into_query_string (q : QueryString) : QueryString :=
  q

/-- The universe of producer values a caller might try to pass toward the
execution boundary.  The first six constructors carry exactly the types for
which the file declares an `impl QuerySafeStr`; `rawString` is an unwrapped,
runtime-built `String`, for which no impl exists. -/
inductive ProducerVal where
  | staticStr (s : StrRef)
  | assertSlice (a : AssertQuerySafe StrRef)
  | assertString (a : AssertQuerySafe StrRef)
  | assertBoxed (a : AssertQuerySafe StrRef)
  | assertArc (a : AssertQuerySafe StrRef)
  | queryString (q : QueryString)
  | rawString (s : StrRef)
deriving DecidableEq

/-- Whether a producer value is an unwrapped runtime `String`. -/
def ProducerVal.isRawString : ProducerVal → Bool
  | .rawString _ => true
  | _ => false

/-- The trust gate over all producer values: `some` exactly when the file has
an `impl QuerySafeStr` for the producer's type, in which case the result is
that impl's total, never-failing body; `none` models the absence of any
conversion, which Rust rejects at compile time. -/
def into_query_string : ProducerVal → Option QueryString
  | .staticStr s => some (staticStr_into_query_string s)
  | .assertSlice a => some (assertSlice_into_query_string a)
  | .assertString a => some (assertString_into_query_string a)
  | .assertBoxed a => some (assertBoxed_into_query_string a)
  | .assertArc a => some (assertArc_into_query_string_intended a)
  | .queryString q => some (queryString_into_query_string q)
  | .rawString _ => none

/-- Allocator bookkeeping: the next fresh allocation identity, and tallies of
heap allocations and text copies performed so far. -/
structure AllocState where
  next : Nat
  allocs : Nat
  copies : Nat
deriving DecidableEq

/-- `&str → Box<str>` (the `s.into()` in `into_static`): allocates one fresh
heap block and copies the text bytes into it. -/
def strToBoxed (s : StrRef) (st : AllocState) : StrRef × AllocState :=
  (⟨st.next, s.data⟩, ⟨st.next + 1, st.allocs + 1, st.copies + 1⟩)

/-- `QueryString::into_static`: erase the borrow by copying the string to a
new allocation if necessary.  `Slice` is rebuilt as `Boxed` via `s.into()`;
the other three arms rebuild the same variant around the same reference,
touching no allocator. -/
def QueryString.into_static (q : QueryString) (st : AllocState) : QueryString × AllocState :=
  match q.repr with
  | .Slice s =>
    let r := strToBoxed s st
    (⟨.Boxed r.1⟩, r.2)
  | .Static s => (⟨.Static s⟩, st)
  | .Boxed s => (⟨.Boxed s⟩, st)
  | .Arced s => (⟨.Arced s⟩, st)

/-- A Rust `String`: an allocation (`loc`) holding the text `data` in a
buffer of `capacity` bytes, where `capacity` may exceed the text's UTF-8 byte
length. -/
structure RString where
  loc : Nat
  data : String
  capacity : Nat
deriving DecidableEq

/-- `String → Box<str>` (`String::into_boxed_str`, the `self.0.into()` in the
`AssertQuerySafe<String>` impl): first shrinks the excess capacity away.
When `capacity` equals the text's byte length the allocation is reused and
nothing is copied; when it exceeds it, the allocator may either shrink the
block in place or move it, reallocating and copying the bytes once — the
`moves` flag selects the allocator's choice. -/
def string_into_boxed_str (moves : Bool) (s : RString) (st : AllocState) :
    StrRef × AllocState :=
  if s.capacity = s.data.utf8ByteSize then (⟨s.loc, s.data⟩, st)
  else if moves then
    (⟨st.next, s.data⟩, ⟨st.next + 1, st.allocs + 1, st.copies + 1⟩)
  else (⟨s.loc, s.data⟩, st)

/-- `impl QuerySafeStr<'static> for AssertQuerySafe<String>` with the
allocation behaviour of `self.0.into()` tracked:
`QueryString(Repr::Boxed(self.0.into()))`. -/
def assertString_into_query_string_alloc (moves : Bool) (a : AssertQuerySafe RString)
    (st : AllocState) : QueryString × AllocState :=
  let r := string_into_boxed_str moves a.val st
  (⟨.Boxed r.1⟩, r.2)

/-- C1: across every producer value, the trust-gate conversion
`into_query_string` is defined (and total, never failing) exactly on the
closed set of implemented producer types; for an unwrapped, runtime-built
`String` no conversion exists. -/
theorem c1_trust_gate_closed (v : ProducerVal) :
    (into_query_string v).isSome = !v.isRawString := by
  cases v <;> rfl

/-- C2: `into_static` on a Borrowed (`Slice`) value performs exactly one
allocation and one copy, yielding an Exclusively-owned (`Boxed`) value at the
fresh location with the same payload; on `Static`, `Boxed` or `Arced` values
it returns the very same value and touches the allocator not at all. -/
theorem c2_into_static_cases (q : QueryString) (st : AllocState) :
    (∀ s, q.repr = .Slice s →
      q.into_static st =
        (⟨.Boxed ⟨st.next, s.data⟩⟩,
          ⟨st.next + 1, st.allocs + 1, st.copies + 1⟩) ∧
      (q.into_static st).1.mode = .ExclusivelyOwned ∧
      (q.into_static st).1.payload = q.payload) ∧
    (q.repr.isSlice = false → q.into_static st = (q, st)) := by
  obtain ⟨r⟩ := q
  cases r <;>
    simp [QueryString.into_static, strToBoxed, Repr.isSlice, QueryString.mode,
      Repr.mode, QueryString.payload, QueryString.as_str]

/-- Witness for C2 at concrete inputs: a Borrowed value is copied into a fresh
Boxed allocation with the counters bumped once each, and a Static value passes
through untouched. -/
theorem c2_witness :
    (QueryString.mk (.Slice ⟨0, "SELECT 1"⟩)).into_static ⟨3, 1, 2⟩ =
      (⟨.Boxed ⟨3, "SELECT 1"⟩⟩, ⟨4, 2, 3⟩) ∧
    (QueryString.mk (.Static ⟨7, "SELECT 1"⟩)).into_static ⟨3, 1, 2⟩ =
      (⟨.Static ⟨7, "SELECT 1"⟩⟩, ⟨3, 1, 2⟩) :=
  ⟨((c2_into_static_cases ⟨.Slice ⟨0, "SELECT 1"⟩⟩ ⟨3, 1, 2⟩).1 _ rfl).1,
    (c2_into_static_cases ⟨.Static ⟨7, "SELECT 1"⟩⟩ ⟨3, 1, 2⟩).2 rfl⟩

/-- C3: two `QueryString` values are equal (Rust `PartialEq`) iff their
payloads are equal, independent of storage mode; the hash is a pure function
of the payload for every hasher, so equal values hash equally; and the value
built from the static text `"x"` and the one built from an asserted
exclusively-owned copy of `"x"` (a distinct allocation) compare equal and
hash equal. -/
theorem c3_eq_hash_payload (a b : QueryString) (hashStr : String → Nat → Nat)
    (state : Nat) :
    (a.beq b = true ↔ a.payload = b.payload) ∧
    (a.payload = b.payload →
      QueryString.hash hashStr a state = QueryString.hash hashStr b state) ∧
    (a.beq b = true →
      QueryString.hash hashStr a state = QueryString.hash hashStr b state) ∧
    (staticStr_into_query_string ⟨0, "x"⟩).beq
      (assertString_into_query_string ⟨⟨1, "x"⟩⟩) = true ∧
    QueryString.hash hashStr (staticStr_into_query_string ⟨0, "x"⟩) state =
      QueryString.hash hashStr (assertString_into_query_string ⟨⟨1, "x"⟩⟩) state := by
  refine ⟨?_, ?_, ?_, ?_, ?_⟩
  · simp [QueryString.beq, QueryString.payload]
  · intro h
    simp [QueryString.hash, QueryString.payload] at *
    rw [h]
  · intro h
    simp only [QueryString.beq, beq_iff_eq] at h
    simp [QueryString.hash, h]
  · rfl
  · rfl

/-- Witness for C3 at concrete inputs: a Static `"x"` and an Arced `"x"` in
different allocations compare equal, hence hash equal under a concrete
hasher. -/
theorem c3_witness :
    QueryString.hash (fun s n => s.length + n) ⟨.Static ⟨0, "x"⟩⟩ 7 =
      QueryString.hash (fun s n => s.length + n) ⟨.Arced ⟨5, "x"⟩⟩ 7 :=
  (c3_eq_hash_payload ⟨.Static ⟨0, "x"⟩⟩ ⟨.Arced ⟨5, "x"⟩⟩
    (fun s n => s.length + n) 7).2.2.1 rfl

/-- C4: converting a compile-time-constant text yields a Static-mode value
whose `as_str` is the very same reference (same allocation, so no allocation
was performed) with the same content; in particular, converting `"SELECT 1"`
and reading it back returns `"SELECT 1"`. -/
theorem c4_static_str_conversion (s : StrRef) :
    staticStr_into_query_string s = ⟨.Static s⟩ ∧
    (staticStr_into_query_string s).mode = .Static ∧
    (staticStr_into_query_string s).as_str = s ∧
    (staticStr_into_query_string ⟨0, "SELECT 1"⟩).payload = "SELECT 1" :=
  ⟨rfl, rfl, rfl, rfl⟩

/-- C5: the trust-gate conversion applied to an already-trusted `QueryString`
is the identity, preserving storage mode and payload. -/
theorem c5_query_string_identity (q : QueryString) :
    queryString_into_query_string q = q ∧
    into_query_string (.queryString q) = some q :=
  ⟨rfl, rfl⟩

/-- C6 counterexample: the claim's no-copy conjunct fails on the program.  A
`String` holding `"SELECT 1"` (8 bytes) in a 16-byte buffer has excess
capacity, so the `self.0.into()` in the `AssertQuerySafe<String>` impl
shrinks it; under an allocator that moves the block, the conversion
reallocates and copies the text once, and the result points at a fresh
allocation (location 1), not at the input's (location 0).  Content is still
preserved. -/
theorem c6_counterexample :
    (assertString_into_query_string_alloc true ⟨⟨0, "SELECT 1", 16⟩⟩ ⟨1, 0, 0⟩).2.copies = 1 ∧
    (assertString_into_query_string_alloc true ⟨⟨0, "SELECT 1", 16⟩⟩ ⟨1, 0, 0⟩).2.allocs = 1 ∧
    (assertString_into_query_string_alloc true ⟨⟨0, "SELECT 1", 16⟩⟩ ⟨1, 0, 0⟩).1.as_str.loc = 1 ∧
    (assertString_into_query_string_alloc true ⟨⟨0, "SELECT 1", 16⟩⟩ ⟨1, 0, 0⟩).1.payload = "SELECT 1" :=
  ⟨rfl, rfl, rfl, rfl⟩

/-- C6 (amended): converting `AssertQuerySafe<String>` yields an
Exclusively-owned (`Boxed`) value whose content equals `self.0`'s exactly;
the input's allocation is reused with no copy when the `String` has no excess
capacity (capacity = byte length), while with excess capacity the allocator
either moves the text to a fresh allocation with exactly one allocation and
one copy, or shrinks in place with none.  Converting
`AssertQuerySafe<Box<str>>` always takes ownership of the same allocation
with no copy.  The runtime-built text `"SELECT * FROM t WHERE id = 5"`
survives unchanged. -/
theorem c6_owned_conversion_amended (moves : Bool) (a : AssertQuerySafe RString)
    (st : AllocState) (b : AssertQuerySafe StrRef) :
    (assertString_into_query_string_alloc moves a st).1.mode = .ExclusivelyOwned ∧
    (assertString_into_query_string_alloc moves a st).1.payload = a.val.data ∧
    (a.val.capacity = a.val.data.utf8ByteSize →
      assertString_into_query_string_alloc moves a st =
        (⟨.Boxed ⟨a.val.loc, a.val.data⟩⟩, st)) ∧
    (a.val.capacity ≠ a.val.data.utf8ByteSize → moves = true →
      assertString_into_query_string_alloc moves a st =
        (⟨.Boxed ⟨st.next, a.val.data⟩⟩,
          ⟨st.next + 1, st.allocs + 1, st.copies + 1⟩)) ∧
    (a.val.capacity ≠ a.val.data.utf8ByteSize → moves = false →
      assertString_into_query_string_alloc moves a st =
        (⟨.Boxed ⟨a.val.loc, a.val.data⟩⟩, st)) ∧
    assertBoxed_into_query_string b = ⟨.Boxed b.val⟩ ∧
    (assertBoxed_into_query_string b).mode = .ExclusivelyOwned ∧
    (assertBoxed_into_query_string b).as_str = b.val ∧
    (assertString_into_query_string_alloc moves
      ⟨⟨0, "SELECT * FROM t WHERE id = 5", 28⟩⟩ st).1.payload
      = "SELECT * FROM t WHERE id = 5" := by
  by_cases h : a.val.capacity = a.val.data.utf8ByteSize <;>
    cases moves <;>
      simp [assertString_into_query_string_alloc, string_into_boxed_str, h,
        QueryString.mode, Repr.mode, QueryString.payload, QueryString.as_str,
        assertBoxed_into_query_string] <;>
    (try (split <;> rfl))

/-- Witness for C6 at concrete inputs: a `String` holding
`"SELECT * FROM t WHERE id = 5"` with no excess capacity converts into the
same allocation with the allocator untouched, and a `String` with excess
capacity, under an allocator that moves on shrink, is copied once into a
fresh allocation. -/
theorem c6_witness :
    assertString_into_query_string_alloc true
        ⟨⟨3, "SELECT * FROM t WHERE id = 5", 28⟩⟩ ⟨9, 0, 0⟩ =
      (⟨.Boxed ⟨3, "SELECT * FROM t WHERE id = 5"⟩⟩, ⟨9, 0, 0⟩) ∧
    assertString_into_query_string_alloc true ⟨⟨3, "ab", 4⟩⟩ ⟨9, 0, 0⟩ =
      (⟨.Boxed ⟨9, "ab"⟩⟩, ⟨10, 1, 1⟩) :=
  ⟨(c6_owned_conversion_amended true ⟨⟨3, "SELECT * FROM t WHERE id = 5", 28⟩⟩
      ⟨9, 0, 0⟩ ⟨⟨0, "x"⟩⟩).2.2.1 (by decide),
    (c6_owned_conversion_amended true ⟨⟨3, "ab", 4⟩⟩
      ⟨9, 0, 0⟩ ⟨⟨0, "x"⟩⟩).2.2.2.1 (by decide) rfl⟩

/-- C7: under the intended `Arc<str>` conversion (the source body
`Repr::Arced(self.into())` is ill-typed; `self.0` is the evident intent),
converting `AssertQuerySafe<Arc<str>>` yields a Shared-ownership (`Arced`)
value referring to the same shared allocation, no copy, content preserved. -/
theorem c7_arc_conversion_intended (a : AssertQuerySafe StrRef) :
    assertArc_into_query_string_intended a = ⟨.Arced a.val⟩ ∧
    (assertArc_into_query_string_intended a).mode = .SharedOwnership ∧
    (assertArc_into_query_string_intended a).as_str = a.val :=
  ⟨rfl, rfl, rfl⟩

/-- C8: converting `AssertQuerySafe<&'a str>` yields a Borrowed (`Slice`)
value storing the very same reference — no copy at conversion time — and
`as_str` returns that same text. -/
theorem c8_borrowed_conversion (a : AssertQuerySafe StrRef) :
    assertSlice_into_query_string a = ⟨.Slice a.val⟩ ∧
    (assertSlice_into_query_string a).mode = .Borrowed ∧
    (assertSlice_into_query_string a).as_str = a.val :=
  ⟨rfl, rfl, rfl⟩

/-- C9: `QueryString` equality (between two `QueryString` values) is
reflexive, symmetric and transitive, for every payload content. -/
theorem c9_eq_equivalence (a b c : QueryString) :
    a.beq a = true ∧
    a.beq b = b.beq a ∧
    (a.beq b = true → b.beq c = true → a.beq c = true) := by
  refine ⟨?_, ?_, ?_⟩
  · simp [QueryString.beq]
  · simp only [QueryString.beq]
    rcases eq_or_ne a.as_str.data b.as_str.data with h | h
    · rw [h]
    · rw [beq_eq_false_iff_ne.2 h, beq_eq_false_iff_ne.2 h.symm]
  · simp only [QueryString.beq, beq_iff_eq]
    intro h h2
    rw [h, h2]

/-- Witness for C9 at concrete inputs covering the empty text, embedded null
bytes and multi-byte UTF-8: transitivity chains two equalities between
distinct storage modes and allocations of the payload `"λ\x00é"`, and the
empty payload is equal to itself. -/
theorem c9_witness :
    (QueryString.mk (.Slice ⟨0, "λ\x00é"⟩)).beq ⟨.Arced ⟨2, "λ\x00é"⟩⟩ = true ∧
    (QueryString.mk (.Static ⟨9, ""⟩)).beq ⟨.Boxed ⟨4, ""⟩⟩ = true :=
  ⟨(c9_eq_equivalence ⟨.Slice ⟨0, "λ\x00é"⟩⟩ ⟨.Boxed ⟨1, "λ\x00é"⟩⟩
      ⟨.Arced ⟨2, "λ\x00é"⟩⟩).2.2 rfl rfl,
    (c9_eq_equivalence ⟨.Static ⟨9, ""⟩⟩ ⟨.Static ⟨9, ""⟩⟩
      ⟨.Boxed ⟨4, ""⟩⟩).2.2 rfl rfl⟩

/-- C10: the result of `into_static` is never in Borrowed (`Slice`) mode, and
`into_static` is idempotent — running it again returns the same value (same
mode, same allocation, same payload) and touches the allocator not at all. -/
theorem c10_into_static_idempotent (q : QueryString) (st st2 : AllocState) :
    (q.into_static st).1.repr.isSlice = false ∧
    (q.into_static st).1.into_static st2 = ((q.into_static st).1, st2) := by
  obtain ⟨r⟩ := q
  cases r <;> simp [QueryString.into_static, strToBoxed, Repr.isSlice]

end QuerySafe
